import Mathlib

/-!
Verification of the aggregation core of the clinical-trial dashboard
(demodash.py, refactor.py, refactor3.py).

The three analyzers consume pandas DataFrames loaded from CSV. We embed a
DataFrame as a schema (the list of column names) together with an ordered
list of rows; a row is an association list from column names to cells. A
cell is a string, a rational number, or the missing marker na (the NaN that
pandas puts in a cell whose value is absent). Looking a column up in a row
that lacks it yields na, which models a NaN cell of a present column; a
column absent from the schema is detected on the cols field, exactly as the
source tests membership in df.columns.

The pandas operations used by the source are embedded as follows.

value_counts: counts of the distinct non-NaN values of a column, presented
in descending order of count. The tie order of equal counts is not
specified by the engine; the embedding fixes it deterministically to first
occurrence in the input (a stable sort over the first-occurrence ordering
of the distinct values), which is what the hash-table based engine produces
in practice. NaN cells are dropped and never counted.

groupby(test).mean(result): one entry per distinct non-NaN test key, keys
in ascending order; the value is the arithmetic mean of the numeric result
cells of the rows of that group, skipping missing cells, and is NaN
(modeled as none) when the group has no numeric observation. These are the
semantics on a float-dtype result column, the only dtype the aggregation
accepts: a column containing a non-numeric token loads as object dtype and
mean then raises TypeError, which analyze_lab_data_checked models; the
plain analyze_lab_data is the behavior on float-dtype columns.

Selections such as df[df[col] == lit] and isin are row filters; NaN cells
compare unequal to every literal, as in pandas.

Numeric cells are rationals: every value a CSV numeric column can carry is
exactly representable, so the spec tolerance of 1e-9 is subsumed by exact
equality.
-/

inductive Val : Type where
  | str : String → Val
  | num : ℚ → Val
  | na : Val
deriving DecidableEq

abbrev Row := List (String × Val)

/-- A loaded dataset: the schema (column names) and the ordered rows. -/
structure DataFrame where
  cols : List String
  rows : List Row
deriving DecidableEq

/-- Cell of a row at a column; na when the row has no value there (NaN). -/
def getCell (r : Row) (c : String) : Val :=
  match r.find? (fun p => decide (p.1 = c)) with
  | some p => p.2
  | none => Val.na

/-- The sequence of cells of a column, one per row, in row order. -/
def colVals (df : DataFrame) (c : String) : List Val :=
  df.rows.map (fun r => getCell r c)

/-- Column access as the source performs it: df[c] raises a KeyError when c
is not in df.columns, modeled as the error case. -/
def getColumn (df : DataFrame) (c : String) : Except String (List Val) :=
  if c ∈ df.cols then Except.ok (colVals df c) else Except.error c

/-- Drop the NaN cells of a column, as every pandas aggregation does. -/
def dropNA (l : List Val) : List Val := l.filter (fun v => decide (v ≠ Val.na))

/-- First-occurrence deduplication, generic worker: accumulates the values
already seen and keeps the first occurrence of each distinct value. -/
def dedupFOAux [DecidableEq α] (seen : List α) : List α → List α
  | [] => []
  | a :: l => if a ∈ seen then dedupFOAux seen l else a :: dedupFOAux (a :: seen) l

/-- The distinct values of a list, in order of first occurrence. -/
def dedupFO [DecidableEq α] (l : List α) : List α := dedupFOAux [] l

/-- Comparison used to present counts in descending order: x may come
before y when the count of y is at most the count of x. -/
def countGE (x y : Val × Nat) : Prop := y.2 ≤ x.2

instance : DecidableRel countGE := fun x y => inferInstanceAs (Decidable (y.2 ≤ x.2))

instance : IsTotal (Val × Nat) countGE := ⟨fun x y => Nat.le_total y.2 x.2⟩

instance : IsTrans (Val × Nat) countGE := ⟨fun _ _ _ h1 h2 => Nat.le_trans h2 h1⟩

/-- Embedding of pandas Series.value_counts: the distinct non-NaN values of
the column with their multiplicities, stably sorted by descending count, so
that equal counts stay in first-occurrence order. -/
def value_counts (col : List Val) : List (Val × Nat) :=
  List.insertionSort countGE
    ((dedupFO (dropNA col)).map (fun k => (k, (dropNA col).count k)))

/-- Lookup of the count (or mean) attached to a key in a summary list. -/
def lookupKey (l : List (Val × β)) (k : Val) : Option β :=
  (l.find? (fun p => decide (p.1 = k))).map Prod.snd

/-- Sum of the counts of a counts-by-key summary. -/
def sumCounts (l : List (Val × Nat)) : Nat := (l.map Prod.snd).sum

/-- Structural lexicographic comparison of character lists (by code point). -/
def charListLE : List Char → List Char → Bool
  | [], _ => true
  | _ :: _, [] => false
  | a :: as, b :: bs =>
      if a.toNat < b.toNat then true
      else if b.toNat < a.toNat then false
      else charListLE as bs

/-- Lexicographic string comparison (computable in the kernel). -/
def strLE (a b : String) : Bool := charListLE a.data b.data

/-- Ascending ordering of cell values: na first, then strings
lexicographically, then numbers; used for the ascending group-key order of
groupby and for the ascending-key tie-break rule stated by the spec. -/
def valLEc : Val → Val → Bool
  | Val.na, _ => true
  | Val.str _, Val.na => false
  | Val.str a, Val.str b => strLE a b
  | Val.str _, Val.num _ => true
  | Val.num _, Val.na => false
  | Val.num _, Val.str _ => false
  | Val.num a, Val.num b => decide (a ≤ b)

def valLE (a b : Val) : Prop := valLEc a b = true

instance : DecidableRel valLE := fun a b => inferInstanceAs (Decidable (valLEc a b = true))

/- ------------------------------------------------------------------ -/
/- The three analyzers, translated from demodash.py (the authoritative
   version; refactor.py and refactor3.py duplicate these functions).    -/
/- ------------------------------------------------------------------ -/

structure EnrollmentSummary where
  total_subjects : Nat
  subjects_by_site : List (Val × Nat)
  subjects_by_arm : List (Val × Nat)
  screen_failures : Nat
deriving DecidableEq

/-- Rows whose ARMCD cell equals the literal string SCRNFAIL; a NaN cell
compares unequal, as in pandas. -/
def scrnfailCount (dm : DataFrame) : Nat :=
  (dm.rows.filter (fun r => decide (getCell r "ARMCD" = Val.str "SCRNFAIL"))).length

/-- The summary record enrollment_metrics builds when it does not fail. -/
def enrollSummaryOf (dm : DataFrame) : EnrollmentSummary :=
  { total_subjects := dm.rows.length
    subjects_by_site := value_counts (colVals dm "SITEID")
    subjects_by_arm := value_counts (colVals dm "ARM")
    screen_failures := if "ARMCD" ∈ dm.cols then scrnfailCount dm else 0 }

/-- demodash.py lines 53-60. The SITEID and ARM columns are accessed
unconditionally (a KeyError when absent, modeled by the error case); only
ARMCD is guarded by a membership test. -/
def enrollment_metrics (dm : DataFrame) : Except String EnrollmentSummary := do
  let _ ← getColumn dm "SITEID"
  let _ ← getColumn dm "ARM"
  Except.ok (enrollSummaryOf dm)

structure AESummary where
  ae_by_severity : List (Val × Nat)
  serious_ae : List (Val × Nat)
  common_ae : List (Val × Nat)
deriving DecidableEq

/-- demodash.py lines 62-79: each grouping is guarded by a column-presence
test and degrades to an empty summary; common_ae keeps the head(10) of the
AEDECOD value counts. -/
def create_ae_summary (ae : DataFrame) : AESummary :=
  { ae_by_severity :=
      if "AESEV" ∈ ae.cols then value_counts (colVals ae "AESEV") else []
    serious_ae :=
      if "AESER" ∈ ae.cols then value_counts (colVals ae "AESER") else []
    common_ae :=
      if "AEDECOD" ∈ ae.cols then (value_counts (colVals ae "AEDECOD")).take 10 else [] }

structure LabSummary where
  lab_means : List (Val × Option ℚ)
  abnormal_labs : List (Val × Nat)
deriving DecidableEq

/-- Numeric content of a cell: a num cell contributes its value, a missing
(na) cell contributes nothing. A str cell also carries none, but this case
is unexercised on the float-dtype result columns that the mean aggregation
accepts: a column containing a non-numeric token has object dtype and makes
groupby mean raise instead, the error path of analyze_lab_data_checked. -/
def toNum : Val → Option ℚ
  | Val.num q => some q
  | _ => none

/-- The numeric LBSTRESN observations of the rows whose LBTEST cell equals
the given key, in row order. -/
def numericObs (lb : DataFrame) (k : Val) : List ℚ :=
  (lb.rows.filter (fun r => decide (getCell r "LBTEST" = k))).filterMap
    (fun r => toNum (getCell r "LBSTRESN"))

/-- Mean of a LBTEST group as pandas computes it: skip missing values, and
produce NaN (none) when no numeric observation contributes. -/
def labMeanOf (lb : DataFrame) (k : Val) : Option ℚ :=
  if numericObs lb k = [] then none
  else some ((numericObs lb k).sum / ((numericObs lb k).length : ℚ))

/-- Embedding of lb.groupby(LBTEST)[LBSTRESN].mean(): one entry per
distinct non-NaN LBTEST value, keys ascending, each with its group mean. -/
def groupMeanByTest (lb : DataFrame) : List (Val × Option ℚ) :=
  (List.insertionSort valLE (dedupFO (dropNA (colVals lb "LBTEST")))).map
    (fun k => (k, labMeanOf lb k))

/-- Rows whose LBNRIND cell is one of the literal abnormal codes L and H,
as selected by isin([L, H]); a NaN cell is never selected. -/
def isAbnormal (r : Row) : Bool :=
  decide (getCell r "LBNRIND" = Val.str "L") || decide (getCell r "LBNRIND" = Val.str "H")

/-- The LBTEST cells of the abnormal rows, the column whose value counts
form abnormal_labs. -/
def abnormalTestCol (lb : DataFrame) : List Val :=
  (lb.rows.filter isAbnormal).map (fun r => getCell r "LBTEST")

/-- demodash.py lines 81-96: both groupings require LBSTRESN and LBTEST in
the schema; the abnormal counting additionally requires LBNRIND. -/
def analyze_lab_data (lb : DataFrame) : LabSummary :=
  if "LBSTRESN" ∈ lb.cols ∧ "LBTEST" ∈ lb.cols then
    { lab_means := groupMeanByTest lb
      abnormal_labs :=
        if "LBNRIND" ∈ lb.cols then value_counts (abnormalTestCol lb) else [] }
  else { lab_means := [], abnormal_labs := [] }

/-- True when a cell holds a non-numeric token: in a CSV numeric column
such a token turns the whole column into object dtype. -/
def isNonNumericCell : Val → Bool
  | Val.str _ => true
  | _ => false

/-- The float-dtype contract of the LBSTRESN column: every cell is numeric
or missing. This is how the column loads from CSV whenever all its tokens
parse as numbers, and it is the data model the spec states for
numericResult (floating point, optional). -/
def resultColNumeric (lb : DataFrame) : Bool :=
  (colVals lb "LBSTRESN").all (fun v => !(isNonNumericCell v))

/-- demodash.py lines 81-96 with the engine error path made explicit. When
the column guard passes, lb.groupby(LBTEST)[LBSTRESN].mean() is evaluated
first: if the LBSTRESN column contains a non-numeric token the column has
object dtype and pandas raises TypeError, aborting the whole analysis
before any summary is produced; on a float-dtype column the behavior is
exactly analyze_lab_data. -/
def analyze_lab_data_checked (lb : DataFrame) : Except String LabSummary :=
  if "LBSTRESN" ∈ lb.cols ∧ "LBTEST" ∈ lb.cols then
    if resultColNumeric lb then
      Except.ok
        { lab_means := groupMeanByTest lb
          abnormal_labs :=
            if "LBNRIND" ∈ lb.cols then value_counts (abnormalTestCol lb) else [] }
    else Except.error "TypeError"
  else Except.ok { lab_means := [], abnormal_labs := [] }

/-- demodash.py line 125: the Active Sites metric derived by main, the
number of entries of subjects_by_site with a positive count. -/
def active_sites (s : EnrollmentSummary) : Nat :=
  (s.subjects_by_site.filter (fun p => decide (0 < p.2))).length

/-- Modelled from the spec: the ordering rule the spec states for every
CountsByKey, descending count with ties broken by ascending key. -/
def specCountsLE (x y : Val × Nat) : Prop :=
  y.2 < x.2 ∨ (x.2 = y.2 ∧ valLE x.1 y.1)

instance : DecidableRel specCountsLE := fun x y =>
  inferInstanceAs (Decidable (y.2 < x.2 ∨ (x.2 = y.2 ∧ valLE x.1 y.1)))

/-- Modelled from the spec: a counts summary is well ordered when every
pair of entries in order satisfies the spec ordering rule. -/
def specCountsSorted (l : List (Val × Nat)) : Prop :=
  List.Pairwise specCountsLE l

instance (l : List (Val × Nat)) : Decidable (specCountsSorted l) :=
  inferInstanceAs (Decidable (List.Pairwise specCountsLE l))

/- ------------------------------------------------------------------ -/
/- Concrete datasets used by witnesses and counterexamples.             -/
/- ------------------------------------------------------------------ -/

/-- A demographics dataset whose schema lacks SITEID. -/
def dmNoSite : DataFrame := { cols := ["ARM"], rows := [[("ARM", Val.str "A")]] }

/-- A demographics dataset whose schema lacks ARM. -/
def dmNoArm : DataFrame := { cols := ["SITEID"], rows := [[("SITEID", Val.str "101")]] }

/-- A demographics dataset with SITEID and ARM but no ARMCD column. -/
def dmNoArmcd : DataFrame :=
  { cols := ["SITEID", "ARM"]
    rows := [[("SITEID", Val.str "101"), ("ARM", Val.str "A")]] }

/-- Three subjects at two sites, one screen failure. -/
def dmFull : DataFrame :=
  { cols := ["SITEID", "ARM", "ARMCD"]
    rows :=
      [[("SITEID", Val.str "101"), ("ARM", Val.str "A"), ("ARMCD", Val.str "A")],
       [("SITEID", Val.str "101"), ("ARM", Val.str "B"), ("ARMCD", Val.str "SCRNFAIL")],
       [("SITEID", Val.str "102"), ("ARM", Val.str "A"), ("ARMCD", Val.str "A")]] }

/-- Two adverse events of distinct severities, MODERATE occurring first. -/
def aeSev : DataFrame :=
  { cols := ["AESEV"]
    rows := [[("AESEV", Val.str "MODERATE")], [("AESEV", Val.str "MILD")]] }

/-- Three adverse events with severity, seriousness and decoded term. -/
def aeFull : DataFrame :=
  { cols := ["AESEV", "AESER", "AEDECOD"]
    rows :=
      [[("AESEV", Val.str "MILD"), ("AESER", Val.str "N"), ("AEDECOD", Val.str "HEADACHE")],
       [("AESEV", Val.str "SEVERE"), ("AESER", Val.str "Y"), ("AEDECOD", Val.str "NAUSEA")],
       [("AESEV", Val.str "MILD"), ("AESER", Val.str "N"), ("AEDECOD", Val.str "HEADACHE")]] }

/-- Eleven adverse events with eleven distinct decoded terms, each once;
the term K occurs first, then A through J. -/
def aeEleven : DataFrame :=
  { cols := ["AEDECOD"]
    rows :=
      [[("AEDECOD", Val.str "K")], [("AEDECOD", Val.str "A")], [("AEDECOD", Val.str "B")],
       [("AEDECOD", Val.str "C")], [("AEDECOD", Val.str "D")], [("AEDECOD", Val.str "E")],
       [("AEDECOD", Val.str "F")], [("AEDECOD", Val.str "G")], [("AEDECOD", Val.str "H")],
       [("AEDECOD", Val.str "I")], [("AEDECOD", Val.str "J")]] }

/-- A lab dataset with the LBTEST and LBSTRESN columns in the schema and a
single ALT record whose numeric result cell is missing (NaN). -/
def lbMissingResult : DataFrame :=
  { cols := ["LBTEST", "LBSTRESN"], rows := [[("LBTEST", Val.str "ALT")]] }

/-- Scenario D of the spec with the flag spellings the spec uses: the
normal-range indicator cells hold the words normal and high. -/
def lbScenarioD : DataFrame :=
  { cols := ["LBTEST", "LBSTRESN", "LBNRIND"]
    rows :=
      [[("LBTEST", Val.str "ALT"), ("LBSTRESN", Val.num 10), ("LBNRIND", Val.str "normal")],
       [("LBTEST", Val.str "ALT"), ("LBSTRESN", Val.num 30), ("LBNRIND", Val.str "high")],
       [("LBTEST", Val.str "AST"), ("LBSTRESN", Val.num 20), ("LBNRIND", Val.str "normal")]] }

/-- Scenario D with the flag codes the source actually tests, N and H. -/
def lbScenarioDH : DataFrame :=
  { cols := ["LBTEST", "LBSTRESN", "LBNRIND"]
    rows :=
      [[("LBTEST", Val.str "ALT"), ("LBSTRESN", Val.num 10), ("LBNRIND", Val.str "N")],
       [("LBTEST", Val.str "ALT"), ("LBSTRESN", Val.num 30), ("LBNRIND", Val.str "H")],
       [("LBTEST", Val.str "AST"), ("LBSTRESN", Val.num 20), ("LBNRIND", Val.str "N")]] }

/-- A lab dataset where ALT has numeric results 10 and 30 plus one missing
result cell, and AST has the single result 20. -/
def lbMeans : DataFrame :=
  { cols := ["LBTEST", "LBSTRESN"]
    rows :=
      [[("LBTEST", Val.str "ALT"), ("LBSTRESN", Val.num 10)],
       [("LBTEST", Val.str "ALT")],
       [("LBTEST", Val.str "ALT"), ("LBSTRESN", Val.num 30)],
       [("LBTEST", Val.str "AST"), ("LBSTRESN", Val.num 20)]] }

/-- A lab dataset with LBTEST and LBNRIND in the schema, an H-flagged row,
but no LBSTRESN column. -/
def lbNoResult : DataFrame :=
  { cols := ["LBTEST", "LBNRIND"]
    rows := [[("LBTEST", Val.str "ALT"), ("LBNRIND", Val.str "H")]] }

/-- A lab dataset whose LBSTRESN column contains the non-numeric token
N/A next to a numeric result, so the column loads with object dtype. -/
def lbBadCell : DataFrame :=
  { cols := ["LBTEST", "LBSTRESN"]
    rows :=
      [[("LBTEST", Val.str "ALT"), ("LBSTRESN", Val.num 10)],
       [("LBTEST", Val.str "ALT"), ("LBSTRESN", Val.str "N/A")]] }

/- ------------------------------------------------------------------ -/
/- Generic facts about the embedded pandas operations.                  -/
/- ------------------------------------------------------------------ -/

theorem mem_dedupFOAux [DecidableEq α] (l : List α) :
    ∀ (seen : List α) (a : α), a ∈ dedupFOAux seen l ↔ a ∈ l ∧ a ∉ seen := by
  induction l with
  | nil => intro seen a; simp [dedupFOAux]
  | cons b l ih =>
    intro seen a
    by_cases hb : b ∈ seen
    · simp only [dedupFOAux, if_pos hb, ih, List.mem_cons]
      constructor
      · exact fun h => ⟨Or.inr h.1, h.2⟩
      · rintro ⟨rfl | h1, h2⟩
        · exact absurd hb h2
        · exact ⟨h1, h2⟩
    · simp only [dedupFOAux, if_neg hb, List.mem_cons, ih]
      constructor
      · rintro (rfl | ⟨h1, h2⟩)
        · exact ⟨Or.inl rfl, hb⟩
        · exact ⟨Or.inr h1, fun hc => h2 (Or.inr hc)⟩
      · rintro ⟨rfl | h1, h2⟩
        · exact Or.inl rfl
        · by_cases hab : a = b
          · exact Or.inl hab
          · exact Or.inr ⟨h1, fun hc => hc.elim hab h2⟩

theorem mem_dedupFO [DecidableEq α] {l : List α} {a : α} : a ∈ dedupFO l ↔ a ∈ l := by
  simp [dedupFO, mem_dedupFOAux]

theorem nodup_dedupFOAux [DecidableEq α] (l : List α) :
    ∀ seen : List α, (dedupFOAux seen l).Nodup := by
  induction l with
  | nil => intro seen; simp [dedupFOAux]
  | cons b l ih =>
    intro seen
    by_cases hb : b ∈ seen
    · simpa [dedupFOAux, if_pos hb] using ih seen
    · simp only [dedupFOAux, if_neg hb, List.nodup_cons]
      refine ⟨?_, ih _⟩
      intro hc
      exact ((mem_dedupFOAux l _ b).mp hc).2 (List.mem_cons_self _ _)

theorem nodup_dedupFO [DecidableEq α] (l : List α) : (dedupFO l).Nodup :=
  nodup_dedupFOAux l []

theorem toFinset_dedupFO [DecidableEq α] (l : List α) :
    (dedupFO l).toFinset = l.toFinset := by
  ext a; simp [List.mem_toFinset, mem_dedupFO]

theorem sum_count_dedupFO [DecidableEq α] (l : List α) :
    ((dedupFO l).map (fun k => l.count k)).sum = l.length := by
  rw [← List.sum_toFinset _ (nodup_dedupFO l), toFinset_dedupFO,
    List.sum_toFinset_count_eq_length]

theorem value_counts_sorted (col : List Val) :
    (value_counts col).Sorted countGE :=
  List.sorted_insertionSort countGE _

theorem value_counts_perm (col : List Val) :
    (value_counts col).Perm
      ((dedupFO (dropNA col)).map (fun k => (k, (dropNA col).count k))) :=
  List.perm_insertionSort _ _

theorem sumCounts_value_counts (col : List Val) :
    sumCounts (value_counts col) = (dropNA col).length := by
  unfold sumCounts
  rw [((value_counts_perm col).map Prod.snd).sum_eq, List.map_map]
  have h : (Prod.snd ∘ fun k => (k, (dropNA col).count k)) =
      fun k => (dropNA col).count k := rfl
  rw [h, sum_count_dedupFO]

theorem mem_value_counts {col : List Val} {p : Val × Nat} (hp : p ∈ value_counts col) :
    p.1 ∈ dropNA col ∧ p.2 = (dropNA col).count p.1 := by
  have h := (value_counts_perm col).mem_iff.mp hp
  rcases List.mem_map.mp h with ⟨x, hx, rfl⟩
  exact ⟨mem_dedupFO.mp hx, rfl⟩

theorem nodup_keys_value_counts (col : List Val) :
    ((value_counts col).map Prod.fst).Nodup := by
  have hperm := (value_counts_perm col).map Prod.fst
  rw [hperm.nodup_iff, List.map_map]
  have h : (Prod.fst ∘ fun k => (k, (dropNA col).count k)) = id := rfl
  rw [h, List.map_id]
  exact nodup_dedupFO _

theorem lookupKey_of_mem {β : Type} {l : List (Val × β)} {k : Val} {c : β}
    (hnd : (l.map Prod.fst).Nodup) (hmem : (k, c) ∈ l) : lookupKey l k = some c := by
  induction l with
  | nil => cases hmem
  | cons p t ih =>
    rw [List.map_cons, List.nodup_cons] at hnd
    rcases List.mem_cons.mp hmem with heq | hmem2
    · subst heq
      simp [lookupKey, List.find?_cons_of_pos]
    · have hk : k ∈ t.map Prod.fst := List.mem_map.mpr ⟨(k, c), hmem2, rfl⟩
      have hne : p.1 ≠ k := fun he => hnd.1 (he ▸ hk)
      have hstep : (p :: t).find? (fun q => decide (q.1 = k)) =
          t.find? (fun q => decide (q.1 = k)) :=
        List.find?_cons_of_neg _ (by simpa using hne)
      unfold lookupKey
      rw [hstep]
      exact ih hnd.2 hmem2

theorem lookupKey_eq_none {β : Type} {l : List (Val × β)} {k : Val}
    (h : k ∉ l.map Prod.fst) : lookupKey l k = none := by
  unfold lookupKey
  rw [List.find?_eq_none.mpr]
  · rfl
  · intro p hp hdec
    exact h (List.mem_map.mpr ⟨p, hp, of_decide_eq_true hdec⟩)

theorem lookupKey_some_mem {β : Type} {l : List (Val × β)} {k : Val} {v : β}
    (h : lookupKey l k = some v) : (k, v) ∈ l := by
  unfold lookupKey at h
  cases hf : l.find? (fun p => decide (p.1 = k)) with
  | none => rw [hf] at h; cases h
  | some p =>
    rw [hf] at h
    have hv : p.2 = v := by simpa using h
    have hpk := List.find?_some hf
    have hk : p.1 = k := by simpa using hpk
    have hmem := List.mem_of_find?_eq_some hf
    have hp : p = (k, v) := Prod.ext hk hv
    exact hp ▸ hmem

theorem lookupKey_map_inv {β : Type} {keys : List Val} {f : Val → β} {k : Val} {v : β}
    (h : lookupKey (keys.map (fun x => (x, f x))) k = some v) : v = f k := by
  rcases List.mem_map.mp (lookupKey_some_mem h) with ⟨x, _, hx⟩
  have h1 : x = k := congrArg Prod.fst hx
  have h2 : f x = v := congrArg Prod.snd hx
  rw [← h2, h1]

theorem count_dropNA {k : Val} (hk : k ≠ Val.na) (col : List Val) :
    (dropNA col).count k = col.count k := by
  unfold dropNA
  rw [List.count_filter]
  simp [hk]

theorem mem_dropNA {k : Val} {col : List Val} :
    k ∈ dropNA col ↔ k ∈ col ∧ k ≠ Val.na := by
  unfold dropNA
  constructor
  · intro h
    exact ⟨List.mem_of_mem_filter h, by simpa using List.of_mem_filter h⟩
  · intro ⟨h1, h2⟩
    exact List.mem_filter.mpr ⟨h1, by simpa using h2⟩

theorem lookupKey_value_counts (col : List Val) (k : Val) (hk : k ≠ Val.na) :
    lookupKey (value_counts col) k =
      if 0 < col.count k then some (col.count k) else none := by
  by_cases hmem : k ∈ col
  · have h1 : k ∈ dropNA col := mem_dropNA.mpr ⟨hmem, hk⟩
    have h2 : (k, (dropNA col).count k) ∈ value_counts col :=
      (value_counts_perm col).mem_iff.mpr
        (List.mem_map.mpr ⟨k, mem_dedupFO.mpr h1, rfl⟩)
    rw [lookupKey_of_mem (nodup_keys_value_counts col) h2, count_dropNA hk,
      if_pos (List.count_pos_iff.mpr hmem)]
  · have h1 : k ∉ (value_counts col).map Prod.fst := by
      intro hc
      rcases List.mem_map.mp hc with ⟨p, hp, rfl⟩
      exact hmem (List.mem_of_mem_filter (mem_value_counts hp).1)
    rw [lookupKey_eq_none h1, if_neg]
    simp [List.count_eq_zero.mpr hmem]

theorem sorted_take_drop {α : Type} {r : α → α → Prop} {l : List α}
    (hl : List.Pairwise r l) (n : Nat) :
    ∀ p ∈ l.take n, ∀ q ∈ l.drop n, r p q := by
  have h2 : List.Pairwise r (l.take n ++ l.drop n) := by
    rw [List.take_append_drop]; exact hl
  exact (List.pairwise_append.mp h2).2.2

/- ------------------------------------------------------------------ -/
/- Shape lemmas for the analyzers.                                      -/
/- ------------------------------------------------------------------ -/

theorem enrollment_metrics_ok (dm : DataFrame)
    (hs : "SITEID" ∈ dm.cols) (ha : "ARM" ∈ dm.cols) :
    enrollment_metrics dm = Except.ok (enrollSummaryOf dm) := by
  simp [enrollment_metrics, getColumn, hs, ha, Bind.bind, Except.bind]

theorem enrollment_metrics_err_site (dm : DataFrame)
    (hs : "SITEID" ∉ dm.cols) :
    enrollment_metrics dm = Except.error "SITEID" := by
  simp [enrollment_metrics, getColumn, hs, Bind.bind, Except.bind]

theorem enrollment_metrics_err_arm (dm : DataFrame)
    (hs : "SITEID" ∈ dm.cols) (ha : "ARM" ∉ dm.cols) :
    enrollment_metrics dm = Except.error "ARM" := by
  simp [enrollment_metrics, getColumn, hs, ha, Bind.bind, Except.bind]

theorem enrollment_metrics_ok_inv {dm : DataFrame} {s : EnrollmentSummary}
    (h : enrollment_metrics dm = Except.ok s) :
    "SITEID" ∈ dm.cols ∧ "ARM" ∈ dm.cols ∧ s = enrollSummaryOf dm := by
  by_cases hs : "SITEID" ∈ dm.cols
  · by_cases ha : "ARM" ∈ dm.cols
    · rw [enrollment_metrics_ok dm hs ha] at h
      injection h with h
      exact ⟨hs, ha, h.symm⟩
    · rw [enrollment_metrics_err_arm dm hs ha] at h
      cases h
  · rw [enrollment_metrics_err_site dm hs] at h
    cases h

theorem analyze_lab_data_pos {lb : DataFrame}
    (hcols : "LBSTRESN" ∈ lb.cols ∧ "LBTEST" ∈ lb.cols) :
    analyze_lab_data lb =
      { lab_means := groupMeanByTest lb
        abnormal_labs :=
          if "LBNRIND" ∈ lb.cols then value_counts (abnormalTestCol lb) else [] } := by
  rw [analyze_lab_data, if_pos hcols]

theorem analyze_lab_data_neg {lb : DataFrame}
    (hn : ¬ ("LBSTRESN" ∈ lb.cols ∧ "LBTEST" ∈ lb.cols)) :
    analyze_lab_data lb = { lab_means := [], abnormal_labs := [] } := by
  rw [analyze_lab_data, if_neg hn]

theorem lab_means_pos {lb : DataFrame}
    (hcols : "LBSTRESN" ∈ lb.cols ∧ "LBTEST" ∈ lb.cols) :
    (analyze_lab_data lb).lab_means = groupMeanByTest lb := by
  rw [analyze_lab_data_pos hcols]

theorem abnormal_labs_pos {lb : DataFrame}
    (hcols : "LBSTRESN" ∈ lb.cols ∧ "LBTEST" ∈ lb.cols) :
    (analyze_lab_data lb).abnormal_labs =
      if "LBNRIND" ∈ lb.cols then value_counts (abnormalTestCol lb) else [] := by
  rw [analyze_lab_data_pos hcols]

theorem value_counts_pairwise (col : List Val) :
    List.Pairwise countGE (value_counts col) :=
  value_counts_sorted col

theorem nodup_keys_groupMean (lb : DataFrame) :
    ((groupMeanByTest lb).map Prod.fst).Nodup := by
  unfold groupMeanByTest
  rw [List.map_map]
  have h : (Prod.fst ∘ fun k => (k, labMeanOf lb k)) = id := rfl
  rw [h, List.map_id]
  exact ((List.perm_insertionSort valLE _).nodup_iff).mpr (nodup_dedupFO _)

theorem lookupKey_groupMean {lb : DataFrame} {k : Val}
    (hk : k ∈ dropNA (colVals lb "LBTEST")) :
    lookupKey (groupMeanByTest lb) k = some (labMeanOf lb k) := by
  have hmem : k ∈ List.insertionSort valLE (dedupFO (dropNA (colVals lb "LBTEST"))) := by
    rw [List.mem_insertionSort]
    exact mem_dedupFO.mpr hk
  exact lookupKey_of_mem (nodup_keys_groupMean lb)
    (List.mem_map.mpr ⟨k, hmem, rfl⟩)

theorem lookupKey_groupMean_inv {lb : DataFrame} {k : Val} {v : Option ℚ}
    (h : lookupKey (groupMeanByTest lb) k = some v) : v = labMeanOf lb k := by
  have h2 : lookupKey
      ((List.insertionSort valLE (dedupFO (dropNA (colVals lb "LBTEST")))).map
        (fun x => (x, labMeanOf lb x))) k = some v := h
  exact lookupKey_map_inv h2

/- ------------------------------------------------------------------ -/
/- The claims.                                                          -/
/- ------------------------------------------------------------------ -/

/-- Claim C1, counterexample. The claim states that analyzeEnrollment never
throws and yields an empty subjectsBySite when the SITEID column is absent.
In the source, dm[SITEID] is accessed without a guard, so on the concrete
dataset dmNoSite (schema without SITEID) enrollment_metrics fails with a
SITEID key error instead of returning empty groupings. -/
theorem claim_C1_counterexample :
    enrollment_metrics dmNoSite = Except.error "SITEID" := rfl

/-- Claim C1, amended. Graceful degradation holds only for the guarded
columns: when SITEID is absent from the schema, analyzeEnrollment fails
with the SITEID key error; when SITEID is present but ARM is absent it
fails with the ARM key error; when both are present it succeeds and
returns the enrollment summary. -/
theorem claim_C1_amended (dm : DataFrame) :
    ("SITEID" ∉ dm.cols → enrollment_metrics dm = Except.error "SITEID") ∧
    ("SITEID" ∈ dm.cols → "ARM" ∉ dm.cols → enrollment_metrics dm = Except.error "ARM") ∧
    ("SITEID" ∈ dm.cols → "ARM" ∈ dm.cols →
      enrollment_metrics dm = Except.ok (enrollSummaryOf dm)) :=
  ⟨fun hs => enrollment_metrics_err_site dm hs,
   fun hs ha => enrollment_metrics_err_arm dm hs ha,
   fun hs ha => enrollment_metrics_ok dm hs ha⟩

/-- Claim C1, witness: each branch of the amended claim at a concrete
dataset. -/
theorem claim_C1_witness :
    enrollment_metrics dmNoSite = Except.error "SITEID" ∧
    enrollment_metrics dmNoArm = Except.error "ARM" ∧
    enrollment_metrics dmFull = Except.ok (enrollSummaryOf dmFull) :=
  ⟨(claim_C1_amended dmNoSite).1 (by decide),
   (claim_C1_amended dmNoArm).2.1 (by decide) (by decide),
   (claim_C1_amended dmFull).2.2 (by decide) (by decide)⟩

/-- Claim C2, counterexample. The claim states that every CountsByKey is
ordered by descending count with ties broken by ascending key, independent
of input order. On aeSev both severities occur once and the summary keeps
them in first-occurrence order MODERATE before MILD, which is descending
in key among equal counts, so consecutive entries violate the spec
ordering rule. -/
theorem claim_C2_counterexample :
    (create_ae_summary aeSev).ae_by_severity =
      [(Val.str "MODERATE", 1), (Val.str "MILD", 1)] ∧
    ¬ specCountsSorted ((create_ae_summary aeSev).ae_by_severity) := by decide

/-- Claim C2, amended. Every CountsByKey produced by the analyzers is
sorted by descending count: every pair of entries in order satisfies
countGE, so no consecutive pair has an increasing count. The order of
entries with equal counts follows first occurrence in the input, not the
ascending-key rule. -/
theorem claim_C2_amended (dm ae lb : DataFrame) (s : EnrollmentSummary)
    (h : enrollment_metrics dm = Except.ok s) :
    List.Pairwise countGE s.subjects_by_site ∧
    List.Pairwise countGE s.subjects_by_arm ∧
    List.Pairwise countGE (create_ae_summary ae).ae_by_severity ∧
    List.Pairwise countGE (create_ae_summary ae).serious_ae ∧
    List.Pairwise countGE (create_ae_summary ae).common_ae ∧
    List.Pairwise countGE (analyze_lab_data lb).abnormal_labs := by
  obtain ⟨hs, ha, rfl⟩ := enrollment_metrics_ok_inv h
  refine ⟨value_counts_pairwise _, value_counts_pairwise _, ?_, ?_, ?_, ?_⟩
  · show List.Pairwise countGE
      (if "AESEV" ∈ ae.cols then value_counts (colVals ae "AESEV") else [])
    split
    · exact value_counts_pairwise _
    · exact List.Pairwise.nil
  · show List.Pairwise countGE
      (if "AESER" ∈ ae.cols then value_counts (colVals ae "AESER") else [])
    split
    · exact value_counts_pairwise _
    · exact List.Pairwise.nil
  · show List.Pairwise countGE
      (if "AEDECOD" ∈ ae.cols then (value_counts (colVals ae "AEDECOD")).take 10 else [])
    split
    · exact (value_counts_pairwise _).sublist (List.take_sublist 10 _)
    · exact List.Pairwise.nil
  · by_cases hcols : "LBSTRESN" ∈ lb.cols ∧ "LBTEST" ∈ lb.cols
    · rw [abnormal_labs_pos hcols]
      split
      · exact value_counts_pairwise _
      · exact List.Pairwise.nil
    · rw [analyze_lab_data_neg hcols]
      exact List.Pairwise.nil

/-- Claim C2, witness: the amended ordering at concrete datasets. -/
theorem claim_C2_witness :
    List.Pairwise countGE (enrollSummaryOf dmFull).subjects_by_site ∧
    List.Pairwise countGE (enrollSummaryOf dmFull).subjects_by_arm ∧
    List.Pairwise countGE (create_ae_summary aeFull).ae_by_severity ∧
    List.Pairwise countGE (create_ae_summary aeFull).serious_ae ∧
    List.Pairwise countGE (create_ae_summary aeFull).common_ae ∧
    List.Pairwise countGE (analyze_lab_data lbScenarioDH).abnormal_labs :=
  claim_C2_amended dmFull aeFull lbScenarioDH (enrollSummaryOf dmFull) rfl

/-- Claim C3, counterexample. The claim states meanByTest never contains a
key with zero contributing numeric observations. On lbMissingResult the
single ALT record has a missing numeric result, so ALT has zero numeric
observations, yet the groupby keeps the ALT group and its mean entry is
present, mapped to NaN (none), rather than excluded. -/
theorem claim_C3_counterexample :
    numericObs lbMissingResult (Val.str "ALT") = [] ∧
    lookupKey (analyze_lab_data lbMissingResult).lab_means (Val.str "ALT") = some none := by
  decide

/-- Claim C3, amended. When the LBSTRESN and LBTEST columns are present, a
test name that occurs in the data but has zero contributing numeric
observations is included in meanByTest and mapped to the NaN mean (none),
rather than being excluded from the mapping. -/
theorem claim_C3_amended (lb : DataFrame) (k : Val)
    (hcols : "LBSTRESN" ∈ lb.cols ∧ "LBTEST" ∈ lb.cols)
    (hk : k ∈ dropNA (colVals lb "LBTEST"))
    (hempty : numericObs lb k = []) :
    lookupKey (analyze_lab_data lb).lab_means k = some none := by
  rw [lab_means_pos hcols, lookupKey_groupMean hk]
  unfold labMeanOf
  rw [if_pos hempty]

/-- Claim C3, witness: the amended claim at the concrete dataset. -/
theorem claim_C3_witness :
    lookupKey (analyze_lab_data lbMissingResult).lab_means (Val.str "ALT") = some none :=
  claim_C3_amended lbMissingResult (Val.str "ALT") (by decide) (by decide) (by decide)

/-- Claim C4, counterexample. The claim states the abnormal codes are the
words low and high, and in particular that the Scenario D record with flag
high counts as abnormal, giving one abnormal ALT record. The source tests
isin([L, H]), so on the Scenario D data as spelled by the spec the
abnormal summary is empty and ALT has no entry at all. -/
theorem claim_C4_counterexample :
    (analyze_lab_data lbScenarioD).abnormal_labs = [] ∧
    lookupKey (analyze_lab_data lbScenarioD).abnormal_labs (Val.str "ALT") = none := by
  decide

/-- Claim C4, amended. When the LBSTRESN and LBTEST columns are present:
if LBNRIND is absent the abnormal summary is the empty mapping, and if
LBNRIND is present then every non-NaN test name whose abnormal-record
count is positive is mapped to that count, where a record is abnormal
exactly when its LBNRIND cell is one of the literal codes L and H (not
the words low and high); a test with no abnormal record has no entry. -/
theorem claim_C4_amended (lb : DataFrame)
    (hcols : "LBSTRESN" ∈ lb.cols ∧ "LBTEST" ∈ lb.cols) :
    ("LBNRIND" ∉ lb.cols → (analyze_lab_data lb).abnormal_labs = []) ∧
    ("LBNRIND" ∈ lb.cols → ∀ k : Val, k ≠ Val.na →
      lookupKey (analyze_lab_data lb).abnormal_labs k =
        if 0 < (abnormalTestCol lb).count k
        then some ((abnormalTestCol lb).count k) else none) := by
  constructor
  · intro hn
    rw [abnormal_labs_pos hcols, if_neg hn]
  · intro hr k hk
    rw [abnormal_labs_pos hcols, if_pos hr]
    exact lookupKey_value_counts (abnormalTestCol lb) k hk

/-- Claim C4, witness: the absent-column branch on lbMissingResult and the
per-key count on lbScenarioDH, whose single H-flagged ALT record is
counted as abnormal. -/
theorem claim_C4_witness :
    (analyze_lab_data lbMissingResult).abnormal_labs = [] ∧
    lookupKey (analyze_lab_data lbScenarioDH).abnormal_labs (Val.str "ALT") =
      (if 0 < (abnormalTestCol lbScenarioDH).count (Val.str "ALT")
       then some ((abnormalTestCol lbScenarioDH).count (Val.str "ALT")) else none) :=
  ⟨(claim_C4_amended lbMissingResult (by decide)).1 (by decide),
   (claim_C4_amended lbScenarioDH (by decide)).2 (by decide) (Val.str "ALT") (by decide)⟩

/-- Claim C5, counterexample. The claim states that with at least 10
distinct terms, topEvents contains exactly the 10 highest-count terms
under the descending-count, ascending-key rule. On aeEleven all 11 terms
occur once; under the stated tie-break rule the retained terms would be A
through J, yet the output keeps the first-occurring term K and drops J,
even though J precedes K in key order. -/
theorem claim_C5_counterexample :
    (value_counts (colVals aeEleven "AEDECOD")).length = 11 ∧
    ((create_ae_summary aeEleven).common_ae.map Prod.fst) =
      [Val.str "K", Val.str "A", Val.str "B", Val.str "C", Val.str "D",
       Val.str "E", Val.str "F", Val.str "G", Val.str "H", Val.str "I"] ∧
    valLE (Val.str "J") (Val.str "K") := by decide

/-- Claim C5, amended. topEvents has at most 10 entries; an absent
AEDECOD column gives the empty mapping; when at most 10 distinct terms
exist it contains all of them; and every retained entry has a count at
least that of every dropped entry. Which equal-count terms sit at the
cutoff follows first-occurrence order, not the ascending-key rule. -/
theorem claim_C5_amended (ae : DataFrame) :
    (create_ae_summary ae).common_ae.length ≤ 10 ∧
    ("AEDECOD" ∉ ae.cols → (create_ae_summary ae).common_ae = []) ∧
    ("AEDECOD" ∈ ae.cols → (value_counts (colVals ae "AEDECOD")).length ≤ 10 →
      (create_ae_summary ae).common_ae = value_counts (colVals ae "AEDECOD")) ∧
    ("AEDECOD" ∈ ae.cols → ∀ p ∈ (create_ae_summary ae).common_ae,
      ∀ q ∈ (value_counts (colVals ae "AEDECOD")).drop 10, q.2 ≤ p.2) := by
  refine ⟨?_, ?_, ?_, ?_⟩
  · show (if "AEDECOD" ∈ ae.cols
        then (value_counts (colVals ae "AEDECOD")).take 10 else []).length ≤ 10
    split
    · exact List.length_take_le 10 _
    · simp
  · intro hn
    show (if "AEDECOD" ∈ ae.cols
        then (value_counts (colVals ae "AEDECOD")).take 10 else []) = []
    rw [if_neg hn]
  · intro hd hlen
    show (if "AEDECOD" ∈ ae.cols
        then (value_counts (colVals ae "AEDECOD")).take 10 else []) =
      value_counts (colVals ae "AEDECOD")
    rw [if_pos hd]
    exact List.take_of_length_le hlen
  · intro hd p hp q hq
    have hp2 : p ∈ (value_counts (colVals ae "AEDECOD")).take 10 := by
      have he : (create_ae_summary ae).common_ae =
          (value_counts (colVals ae "AEDECOD")).take 10 := by
        show (if "AEDECOD" ∈ ae.cols
            then (value_counts (colVals ae "AEDECOD")).take 10 else []) = _
        rw [if_pos hd]
      exact he ▸ hp
    exact sorted_take_drop (value_counts_pairwise _) 10 p hp2 q hq

/-- Claim C5, witness: each clause of the amended claim at concrete
datasets, the boundary clause instantiated at the retained entry for K and
the dropped entry for J on aeEleven. -/
theorem claim_C5_witness :
    (create_ae_summary aeEleven).common_ae.length ≤ 10 ∧
    (create_ae_summary aeSev).common_ae = [] ∧
    (create_ae_summary aeFull).common_ae = value_counts (colVals aeFull "AEDECOD") ∧
    ((Val.str "J", 1) : Val × Nat).2 ≤ ((Val.str "K", 1) : Val × Nat).2 :=
  ⟨(claim_C5_amended aeEleven).1,
   (claim_C5_amended aeSev).2.1 (by decide),
   (claim_C5_amended aeFull).2.2.1 (by decide) (by decide),
   (claim_C5_amended aeEleven).2.2.2 (by decide) (Val.str "K", 1) (by decide)
     (Val.str "J", 1) (by decide)⟩

/-- Claim C6, counterexample. The claim states that records with a
non-numeric value in the numeric-result field are silently excluded from
the mean rather than causing a failure. On lbBadCell, whose LBSTRESN
column holds the non-numeric token N/A next to the numeric result 10, the
column has object dtype and the mean aggregation raises TypeError,
aborting the analysis instead of averaging the remaining value. -/
theorem claim_C6_counterexample :
    Val.str "N/A" ∈ colVals lbBadCell "LBSTRESN" ∧
    "LBSTRESN" ∈ lbBadCell.cols ∧ "LBTEST" ∈ lbBadCell.cols ∧
    analyze_lab_data_checked lbBadCell = Except.error "TypeError" :=
  ⟨by decide, by decide, by decide, rfl⟩

/-- Claim C6, amended. When the LBSTRESN and LBTEST columns are present:
on a float-dtype result column (every cell numeric or missing) the
analysis succeeds with the summary of analyze_lab_data, and every value
recorded in meanByTest is the exact arithmetic mean of the numeric
observations of its test, the contributing list being nonempty and the
value times its length equaling its sum (exact rational arithmetic,
subsuming the 1e-9 tolerance), records with a missing result cell being
silently excluded; but when the result column contains a non-numeric
value the whole mean aggregation raises TypeError, so a malformed value
is not silently excluded. -/
theorem claim_C6_amended (lb : DataFrame) (k : Val) (q : ℚ)
    (hcols : "LBSTRESN" ∈ lb.cols ∧ "LBTEST" ∈ lb.cols) :
    (resultColNumeric lb = true →
      analyze_lab_data_checked lb = Except.ok (analyze_lab_data lb)) ∧
    (resultColNumeric lb = false →
      analyze_lab_data_checked lb = Except.error "TypeError") ∧
    (resultColNumeric lb = true →
      lookupKey (analyze_lab_data lb).lab_means k = some (some q) →
      numericObs lb k ≠ [] ∧
      q * ((numericObs lb k).length : ℚ) = (numericObs lb k).sum) := by
  refine ⟨?_, ?_, ?_⟩
  · intro hnum
    rw [analyze_lab_data_pos hcols]
    simp [analyze_lab_data_checked, hcols.1, hcols.2, hnum]
  · intro hnum
    simp [analyze_lab_data_checked, hcols.1, hcols.2, hnum]
  · intro _ h
    rw [lab_means_pos hcols] at h
    have hv : some q = labMeanOf lb k := lookupKey_groupMean_inv h
    by_cases he : numericObs lb k = []
    · unfold labMeanOf at hv
      rw [if_pos he] at hv
      cases hv
    · refine ⟨he, ?_⟩
      unfold labMeanOf at hv
      rw [if_neg he] at hv
      have hq : q = (numericObs lb k).sum / ((numericObs lb k).length : ℚ) :=
        Option.some.inj hv
      have hlen : ((numericObs lb k).length : ℚ) ≠ 0 := by
        have hz : (numericObs lb k).length ≠ 0 :=
          fun h0 => he (List.length_eq_zero.mp h0)
        exact_mod_cast hz
      rw [hq, div_mul_cancel₀ _ hlen]

/-- Claim C6, witness: lbMeans has a float-dtype result column, so the
checked analysis succeeds; on lbBadCell it raises; and on lbMeans the ALT
group contributes the two numeric observations 10 and 30 while its
missing result cell is skipped, the recorded mean times 2 equaling their
sum 40. -/
theorem claim_C6_witness :
    analyze_lab_data_checked lbMeans = Except.ok (analyze_lab_data lbMeans) ∧
    analyze_lab_data_checked lbBadCell = Except.error "TypeError" ∧
    (numericObs lbMeans (Val.str "ALT") ≠ [] ∧
      ((numericObs lbMeans (Val.str "ALT")).sum /
          ((numericObs lbMeans (Val.str "ALT")).length : ℚ)) *
          ((numericObs lbMeans (Val.str "ALT")).length : ℚ) =
        (numericObs lbMeans (Val.str "ALT")).sum) :=
  ⟨(claim_C6_amended lbMeans (Val.str "ALT") 0 (by decide)).1 (by decide),
   (claim_C6_amended lbBadCell (Val.str "ALT") 0 (by decide)).2.1 (by decide),
   (claim_C6_amended lbMeans (Val.str "ALT")
      ((numericObs lbMeans (Val.str "ALT")).sum /
        ((numericObs lbMeans (Val.str "ALT")).length : ℚ))
      (by decide)).2.2 (by decide) rfl⟩

/-- Claim C7, confirmed. For every grouping produced by the analyzers the
counts sum to the number of input records with a non-NaN value of the
grouped field: subjectsBySite and subjectsByArm (whenever the enrollment
call succeeds), bySeverity and bySeriousness (when their columns exist),
the full AEDECOD grouping underlying topEvents, and the abnormal counts
(whose input records are the abnormal rows). When the grouped field is
non-NaN in every record the sum equals the total record count, stated
here for subjectsBySite. -/
theorem claim_C7 (dm ae lb : DataFrame) (s : EnrollmentSummary)
    (h : enrollment_metrics dm = Except.ok s) :
    sumCounts s.subjects_by_site = (dropNA (colVals dm "SITEID")).length ∧
    sumCounts s.subjects_by_arm = (dropNA (colVals dm "ARM")).length ∧
    (Val.na ∉ colVals dm "SITEID" → sumCounts s.subjects_by_site = dm.rows.length) ∧
    ("AESEV" ∈ ae.cols →
      sumCounts (create_ae_summary ae).ae_by_severity =
        (dropNA (colVals ae "AESEV")).length) ∧
    ("AESER" ∈ ae.cols →
      sumCounts (create_ae_summary ae).serious_ae =
        (dropNA (colVals ae "AESER")).length) ∧
    sumCounts (value_counts (colVals ae "AEDECOD")) =
      (dropNA (colVals ae "AEDECOD")).length ∧
    ("LBSTRESN" ∈ lb.cols ∧ "LBTEST" ∈ lb.cols → "LBNRIND" ∈ lb.cols →
      sumCounts (analyze_lab_data lb).abnormal_labs =
        (dropNA (abnormalTestCol lb)).length) := by
  obtain ⟨hs, ha, rfl⟩ := enrollment_metrics_ok_inv h
  refine ⟨sumCounts_value_counts _, sumCounts_value_counts _, ?_, ?_, ?_,
    sumCounts_value_counts _, ?_⟩
  · intro hna
    have hdrop : dropNA (colVals dm "SITEID") = colVals dm "SITEID" := by
      unfold dropNA
      apply List.filter_eq_self.mpr
      intro a hmem
      simp only [decide_eq_true_eq]
      exact fun he => hna (he ▸ hmem)
    show sumCounts (value_counts (colVals dm "SITEID")) = dm.rows.length
    rw [sumCounts_value_counts, hdrop]
    simp [colVals]
  · intro hsev
    show sumCounts (if "AESEV" ∈ ae.cols
        then value_counts (colVals ae "AESEV") else []) = _
    rw [if_pos hsev]
    exact sumCounts_value_counts _
  · intro hser
    show sumCounts (if "AESER" ∈ ae.cols
        then value_counts (colVals ae "AESER") else []) = _
    rw [if_pos hser]
    exact sumCounts_value_counts _
  · intro hcols hr
    rw [abnormal_labs_pos hcols, if_pos hr]
    exact sumCounts_value_counts _

/-- Claim C7, witness: the sums at concrete datasets, including the
always-present clause on dmFull, whose SITEID cells are all non-NaN. -/
theorem claim_C7_witness :
    sumCounts (enrollSummaryOf dmFull).subjects_by_site =
      (dropNA (colVals dmFull "SITEID")).length ∧
    sumCounts (enrollSummaryOf dmFull).subjects_by_arm =
      (dropNA (colVals dmFull "ARM")).length ∧
    (Val.na ∉ colVals dmFull "SITEID" →
      sumCounts (enrollSummaryOf dmFull).subjects_by_site = dmFull.rows.length) ∧
    ("AESEV" ∈ aeFull.cols →
      sumCounts (create_ae_summary aeFull).ae_by_severity =
        (dropNA (colVals aeFull "AESEV")).length) ∧
    ("AESER" ∈ aeFull.cols →
      sumCounts (create_ae_summary aeFull).serious_ae =
        (dropNA (colVals aeFull "AESER")).length) ∧
    sumCounts (value_counts (colVals aeFull "AEDECOD")) =
      (dropNA (colVals aeFull "AEDECOD")).length ∧
    ("LBSTRESN" ∈ lbScenarioDH.cols ∧ "LBTEST" ∈ lbScenarioDH.cols →
      "LBNRIND" ∈ lbScenarioDH.cols →
      sumCounts (analyze_lab_data lbScenarioDH).abnormal_labs =
        (dropNA (abnormalTestCol lbScenarioDH)).length) :=
  claim_C7 dmFull aeFull lbScenarioDH (enrollSummaryOf dmFull) rfl

/-- Claim C8, confirmed. Whenever analyzeEnrollment succeeds, every entry
of subjectsBySite has a strictly positive count, so the Active Sites
metric of main, the number of entries with positive count, equals the
total number of entries. -/
theorem claim_C8 (dm : DataFrame) (s : EnrollmentSummary)
    (h : enrollment_metrics dm = Except.ok s) :
    (∀ p ∈ s.subjects_by_site, 0 < p.2) ∧
    active_sites s = s.subjects_by_site.length := by
  obtain ⟨hs, ha, rfl⟩ := enrollment_metrics_ok_inv h
  have hpos : ∀ p ∈ (enrollSummaryOf dm).subjects_by_site, 0 < p.2 := by
    intro p hp
    have hp2 : p ∈ value_counts (colVals dm "SITEID") := hp
    have hm := mem_value_counts hp2
    rw [hm.2]
    exact List.count_pos_iff.mpr hm.1
  refine ⟨hpos, ?_⟩
  have hfe : ((enrollSummaryOf dm).subjects_by_site.filter
      (fun p => decide (0 < p.2))) = (enrollSummaryOf dm).subjects_by_site :=
    List.filter_eq_self.mpr (fun p hp => by simpa using hpos p hp)
  unfold active_sites
  rw [hfe]

/-- Claim C8, witness: on dmFull the site entry for 101 has the positive
count 2, and the active-site count equals the number of entries. -/
theorem claim_C8_witness :
    (0 < ((Val.str "101", 2) : Val × Nat).2) ∧
    active_sites (enrollSummaryOf dmFull) =
      (enrollSummaryOf dmFull).subjects_by_site.length :=
  ⟨(claim_C8 dmFull (enrollSummaryOf dmFull) rfl).1 (Val.str "101", 2) (by decide),
   (claim_C8 dmFull (enrollSummaryOf dmFull) rfl).2⟩

/-- Claim C9, counterexample. The claim states that for every subject
dataset with armCode absent the result is 0 and no error is raised; but
on dmNoSite, which has no ARMCD column, the call fails with the SITEID
key error before any count is produced. -/
theorem claim_C9_counterexample :
    "ARMCD" ∉ dmNoSite.cols ∧ enrollment_metrics dmNoSite = Except.error "SITEID" :=
  ⟨by decide, rfl⟩

/-- Claim C9, amended. Whenever analyzeEnrollment succeeds (SITEID and ARM
present), screenFailureCount equals the number of records whose ARMCD cell
equals the literal SCRNFAIL when the ARMCD column is present, and is 0
when the ARMCD column is absent, without an error. -/
theorem claim_C9_amended (dm : DataFrame) (s : EnrollmentSummary)
    (h : enrollment_metrics dm = Except.ok s) :
    ("ARMCD" ∈ dm.cols → s.screen_failures = scrnfailCount dm) ∧
    ("ARMCD" ∉ dm.cols → s.screen_failures = 0) := by
  obtain ⟨hs, ha, rfl⟩ := enrollment_metrics_ok_inv h
  constructor
  · intro hc
    show (if "ARMCD" ∈ dm.cols then scrnfailCount dm else 0) = scrnfailCount dm
    rw [if_pos hc]
  · intro hc
    show (if "ARMCD" ∈ dm.cols then scrnfailCount dm else 0) = 0
    rw [if_neg hc]

/-- Claim C9, witness: on dmFull the screen-failure count is the SCRNFAIL
record count, and on dmNoArmcd, whose schema lacks ARMCD, it is 0. -/
theorem claim_C9_witness :
    (enrollSummaryOf dmFull).screen_failures = scrnfailCount dmFull ∧
    (enrollSummaryOf dmNoArmcd).screen_failures = 0 :=
  ⟨(claim_C9_amended dmFull (enrollSummaryOf dmFull) rfl).1 (by decide),
   (claim_C9_amended dmNoArmcd (enrollSummaryOf dmNoArmcd) rfl).2 (by decide)⟩

/-- Claim C10, confirmed. When the LBSTRESN column is absent from the
schema, analyze_lab_data returns an empty abnormal summary even when both
the LBTEST and LBNRIND columns are present: the abnormal counting sits
under the guard requiring the numeric result column. -/
theorem claim_C10 (lb : DataFrame)
    (_ht : "LBTEST" ∈ lb.cols) (_hr : "LBNRIND" ∈ lb.cols)
    (hn : "LBSTRESN" ∉ lb.cols) :
    (analyze_lab_data lb).abnormal_labs = [] := by
  rw [analyze_lab_data_neg (fun hc => hn hc.1)]

/-- Claim C10, witness: lbNoResult has LBTEST and LBNRIND, an H-flagged
record, and no LBSTRESN column, and its abnormal summary is empty. -/
theorem claim_C10_witness : (analyze_lab_data lbNoResult).abnormal_labs = [] :=
  claim_C10 lbNoResult (by decide) (by decide) (by decide)
